import Mathlib

/-!
Shallow embedding of the perm4 institutional-RWA demo repository.

Part 1: the ZK PRET adapter (src/zkpret-integration/ZKPretAdapter.ts) and the
FORTE rule evaluators (ForteSDKManager in src/unnamed/part_009).

Modelling conventions:
* JavaScript numbers are modelled as rationals (only comparisons, floor and
  exact decimal arithmetic occur in the code);
* a possibly-missing (undefined) field is an Option;
* the JavaScript a || b idiom on strings and numbers is strOr and qOr, which
  treat the empty string and 0 as falsy, like JavaScript does;
* a rule evaluation that can raise a runtime TypeError is an Option while the
  rest are total; reason strings, proof strings and Date.now timestamps are
  print-only metadata and are not part of the model.
-/

namespace RWADemo

/-- JavaScript "o || d" for a possibly-undefined string: empty string is falsy. -/
def strOr (o : Option String) (d : String) : String :=
  match o with
  | some s => if s = "" then d else s
  | none => d

/-- JavaScript "o || d" for a possibly-undefined number: 0 is falsy. -/
def qOr (o : Option ℚ) (d : ℚ) : ℚ :=
  match o with
  | some x => if x = 0 then d else x
  | none => d

/-- Does the character list start with the given pattern? (helper for the
JavaScript String.prototype.includes semantics). -/
def segStartsWith : List Char → List Char → Bool
  | [], _ => true
  | _ :: _, [] => false
  | p :: ps, c :: cs => p == c && segStartsWith ps cs

/-- Does the pattern occur as a contiguous segment of the list? -/
def segOccurs (pattern : List Char) : List Char → Bool
  | [] => segStartsWith pattern []
  | c :: cs => segStartsWith pattern (c :: cs) || segOccurs pattern cs

/-- JavaScript s.includes(pattern) on strings. -/
def jsIncludes (s pattern : String) : Bool :=
  segOccurs pattern.toList s.toList

/-- Result record of the ZKPretIntegrationManager verification helpers
(proof string and timestamp dropped: Date.now metadata only). -/
structure ZKPretVerificationResult where
  verified : Bool
  score : ℚ
deriving DecidableEq

/-- ZKPretIntegrationManager.verifyGLEIF: mock GLEIF verification.
The corporateName argument is ignored by the source. -/
def verifyGLEIF (lei _corporateName : String) : ZKPretVerificationResult :=
  let verified := lei.length == 20 && !(jsIncludes lei "INVALID")
  { verified := verified, score := if verified then 100 else 0 }

/-- ZKPretIntegrationManager.verifyBPMNCompliance: mock BPMN verification.
The processDefinition argument is ignored by the source. -/
def verifyBPMNCompliance (_processDefinition assetDescription : String) :
    ZKPretVerificationResult :=
  let verified :=
    decide (10 < assetDescription.length) &&
      !(jsIncludes assetDescription "Unverified")
  { verified := verified, score := if verified then 85 else 0 }

/-- One "transactionData" / "assetData" object as the demo scripts build it.
Absent fields are none (JavaScript undefined). -/
structure TransactionData where
  corporateName : Option String := none
  legalEntityIdentifier : Option String := none
  recipient : Option String := none
  assetDescription : Option String := none
  interestRate : Option ℚ := none
  documentHash : Option String := none
  tradeDocuments : Option (List String) := none
  principalAmount : Option ℚ := none
  assetType : Option String := none
  creditRating : Option String := none
  transferAmount : Option ℚ := none
  minimumFractionSize : Option ℚ := none
  totalFractions : Option ℚ := none
  pyusdAmount : Option ℚ := none
  buyerCountry : Option String := none
  sellerCountry : Option String := none
deriving DecidableEq

/-- ZKPretIntegrationManager.assessACTUSRisk: interestRate > 1500 means risk
score 800, else 300 (undefined > 1500 is false in JavaScript). -/
def assessACTUSRisk (assetData : TransactionData) : ZKPretVerificationResult :=
  let riskScore : ℚ :=
    match assetData.interestRate with
    | some r => if 1500 < r then 800 else 300
    | none => 300
  { verified := decide (riskScore ≤ 500), score := riskScore }

/-- ZKPretIntegrationManager.verifyDCSADocuments. The documentHash parameter
may be undefined at the rule-7 call site, hence the Option. -/
def verifyDCSADocuments (documentHash : Option String)
    (tradeDocuments : List String) : ZKPretVerificationResult :=
  let verified :=
    (match documentHash with
     | some h => h != "0x0000000000000000000000000000000000000000"
     | none => true) && decide (0 < tradeDocuments.length)
  { verified := verified, score := if verified then 90 else 0 }

/-- The creditScoreMap object of calculateMetadataScore. -/
def creditScoreMap (rating : String) : Option ℚ :=
  List.lookup rating
    [("AAA", 20), ("AA", 19), ("A", 18), ("BBB", 15), ("BB", 12),
     ("B", 8), ("CCC", 5), ("CC", 3), ("C", 1), ("D", 0)]

/-- Result record of calculateMetadataScore. -/
structure MetadataScore where
  gleifScore : ℚ
  bpmnScore : ℚ
  actuarialScore : ℚ
  dcsaScore : ℚ
  financialScore : ℚ
  totalScore : ℚ
deriving DecidableEq

/-- ZKPretIntegrationManager.calculateMetadataScore (FORTE rule 9).
Note the JavaScript "|| 10" on the credit lookup makes a D rating (value 0,
falsy) score 10, and "|| 500" would replace a 0 ACTUS score. -/
def calculateMetadataScore (assetData : TransactionData) : MetadataScore :=
  let gleifResult :=
    verifyGLEIF (strOr assetData.legalEntityIdentifier "")
      (strOr assetData.corporateName "")
  let gleifScore : ℚ := if gleifResult.verified then 25 else 0
  let bpmnResult :=
    verifyBPMNCompliance (strOr assetData.assetDescription "")
      (strOr assetData.assetDescription "")
  let bpmnScore : ℚ := if bpmnResult.verified then 20 else 10
  let actusResult := assessACTUSRisk assetData
  let actusScore : ℚ := if actusResult.score = 0 then 500 else actusResult.score
  let actuarialScore : ℚ := ((max 0 (20 - ⌊actusScore * 20 / 1000⌋) : ℤ) : ℚ)
  let dcsaResult :=
    verifyDCSADocuments (some (strOr assetData.documentHash ""))
      (assetData.tradeDocuments.getD [])
  let dcsaScore : ℚ := if dcsaResult.verified then 15 else 8
  let financialScore : ℚ :=
    match assetData.creditRating with
    | some r =>
        match creditScoreMap r with
        | some v => if v = 0 then 10 else v
        | none => 10
    | none => 10
  { gleifScore := gleifScore
    bpmnScore := bpmnScore
    actuarialScore := actuarialScore
    dcsaScore := dcsaScore
    financialScore := financialScore
    totalScore := gleifScore + bpmnScore + actuarialScore + dcsaScore + financialScore }

/-- Result record of checkMetadataThreshold. -/
structure ThresholdCheck where
  meetsThreshold : Bool
  currentScore : ℚ
  requiredScore : ℚ
deriving DecidableEq

/-- ZKPretIntegrationManager.checkMetadataThreshold (FORTE rule 12). -/
def checkMetadataThreshold (assetData : TransactionData) : ThresholdCheck :=
  let currentScore := (calculateMetadataScore assetData).totalScore
  let base : ℚ :=
    match assetData.principalAmount with
    | some p =>
        if 10000000 ≤ p then 95
        else if 5000000 ≤ p then 85
        else if 1000000 ≤ p then 75
        else 70
    | none => 70
  let r1 : ℚ := if assetData.assetType = some "STRUCTURED_PRODUCTS" then base + 5 else base
  let r2 : ℚ := if assetData.assetType = some "TRADE_FINANCE" then r1 + 3 else r1
  let requiredScore : ℚ := min 100 r2
  { meetsThreshold := decide (requiredScore ≤ currentScore)
    currentScore := currentScore
    requiredScore := requiredScore }

/-- The assetTypeMultipliers object of calculateOptimalFractions with its
JavaScript "|| 1000" fallback (no table value is falsy). -/
def assetTypeMultiplier (assetType : Option String) : ℚ :=
  match assetType with
  | some t =>
      match List.lookup t
        [("SUPPLY_CHAIN_INVOICE", (1000 : ℚ)), ("EQUIPMENT_FINANCE", 10000),
         ("TRADE_FINANCE", 5000), ("WORKING_CAPITAL", 2000),
         ("COMMERCIAL_REAL_ESTATE", 25000), ("CORPORATE_BONDS", 1000),
         ("STRUCTURED_PRODUCTS", 50000)] with
      | some m => m
      | none => 1000
  | none => 1000

/-- Result record of calculateOptimalFractions. A none models the NaN that
JavaScript produces when principalAmount is undefined. -/
structure FractionParams where
  optimalCount : Option ℤ
  minimumSize : Option ℤ
  maximumSize : Option ℤ
  liquidityFactor : ℚ
deriving DecidableEq

/-- ZKPretIntegrationManager.calculateOptimalFractions (FORTE rule 8):
optimalCount = Math.max(10, Math.min(10000, floor(principal / multiplier))). -/
def calculateOptimalFractions (principalAmount : Option ℚ)
    (assetType : Option String) : FractionParams :=
  let multiplier := assetTypeMultiplier assetType
  let optimalCount : Option ℤ :=
    principalAmount.map fun p => max 10 (min 10000 ⌊p / multiplier⌋)
  let minimumSize : Option ℤ :=
    match principalAmount, optimalCount with
    | some p, some c => some ⌊p / (c : ℚ)⌋
    | _, _ => none
  let maximumSize : Option ℤ := minimumSize.map (· * 10)
  let liquidityFactor : ℚ :=
    match optimalCount with
    | some c => if 100 ≤ c ∧ c ≤ 5000 then 3 / 2 else 1
    | none => 1
  { optimalCount := optimalCount
    minimumSize := minimumSize
    maximumSize := maximumSize
    liquidityFactor := liquidityFactor }

/-! ForteSDKManager rule evaluators (src/unnamed/part_009). -/

/-- Result of one rule evaluation (the reason string is print-only metadata). -/
structure RuleResult where
  passed : Bool
deriving DecidableEq

/-- Rule 1: enhanced KYC + GLEIF. Fails when the LEI field is falsy. -/
def evaluateRule01 (data : TransactionData) : RuleResult :=
  match data.legalEntityIdentifier with
  | none => { passed := false }
  | some lei =>
      if lei = "" then { passed := false }
      else { passed := (verifyGLEIF lei (strOr data.corporateName "")).verified }

/-- Rule 2: mock OFAC check on the lower-cased recipient address. -/
def evaluateRule02 (data : TransactionData) : RuleResult :=
  let sanctionedAddresses := ["0x1111111111111111111111111111111111111111"]
  let isOnSanctionsList :=
    match data.recipient with
    | some r => sanctionedAddresses.contains r.toLower
    | none => false
  { passed := !isOnSanctionsList }

/-- Rule 3: mock cross-border sanctions check, always passes. -/
def evaluateRule03 (_data : TransactionData) : RuleResult :=
  { passed := true }

/-- Rule 4: LEI present and exactly 20 characters. -/
def evaluateRule04 (data : TransactionData) : RuleResult :=
  match data.legalEntityIdentifier with
  | none => { passed := false }
  | some lei =>
      if lei = "" then { passed := false }
      else { passed := lei.length == 20 }

/-- Rule 5: BPMN compliance. When assetDescription is undefined the source
dereferences undefined.length inside verifyBPMNCompliance and throws, hence
the none. -/
def evaluateRule05 (data : TransactionData) : Option RuleResult :=
  match data.assetDescription with
  | none => none
  | some desc => some { passed := (verifyBPMNCompliance desc desc).verified }

/-- Rule 6: ACTUS risk score at most 500 (the "|| 999" fallback fires only on
a falsy score). -/
def evaluateRule06 (data : TransactionData) : RuleResult :=
  let actusResult := assessACTUSRisk data
  let s : ℚ := if actusResult.score = 0 then 999 else actusResult.score
  { passed := decide (s ≤ 500) }

/-- Rule 7: DCSA document verification. -/
def evaluateRule07 (data : TransactionData) : RuleResult :=
  { passed := (verifyDCSADocuments data.documentHash (data.tradeDocuments.getD [])).verified }

/-- Rule 8: optimal fraction count within [10, 10000]. -/
def evaluateRule08 (data : TransactionData) : RuleResult :=
  let fractionParams := calculateOptimalFractions data.principalAmount data.assetType
  let isOptimal :=
    match fractionParams.optimalCount with
    | some c => decide (10 ≤ c) && decide (c ≤ 10000)
    | none => false
  { passed := isOptimal }

/-- Rule 9: metadata score at least 70. -/
def evaluateRule09 (data : TransactionData) : RuleResult :=
  { passed := decide (70 ≤ (calculateMetadataScore data).totalScore) }

/-- Rule 10: transfer amount at least the 500 dollar minimum. -/
def evaluateRule10 (data : TransactionData) : RuleResult :=
  let transferAmount := qOr data.transferAmount (qOr data.minimumFractionSize 0)
  { passed := decide (500 ≤ transferAmount) }

/-- Rule 11: liquidity optimization, warning-only: always passes. -/
def evaluateRule11 (_data : TransactionData) : RuleResult :=
  { passed := true }

/-- Rule 12: enhanced metadata threshold. -/
def evaluateRule12 (data : TransactionData) : RuleResult :=
  { passed := (checkMetadataThreshold data).meetsThreshold }

/-- Rule 13: PYUSD peg verification with a hardcoded 1.001 peg price. -/
def evaluateRule13 (data : TransactionData) : RuleResult :=
  let pyusdAmount := qOr data.pyusdAmount (qOr data.principalAmount 0)
  let pyusdPegPrice : ℚ := 1001 / 1000
  let pegStable :=
    decide ((995 / 1000 : ℚ) ≤ pyusdPegPrice) && decide (pyusdPegPrice ≤ 1005 / 1000)
  let sufficientReserves := decide (pyusdAmount ≤ 50000000)
  let meetsMininumLiquidity := decide (1000000 ≤ pyusdAmount)
  if !pegStable then { passed := false }
  else if !sufficientReserves then { passed := false }
  else if !meetsMininumLiquidity then { passed := false }
  else { passed := true }

/-- FATF supported countries of rule 14. -/
def supportedCountries : List String :=
  ["US", "GB", "DE", "JP", "IN", "SG", "CA", "AU", "FR", "IT", "ES", "NL"]

/-- Sanctions list of rule 14. -/
def restrictedCountries : List String :=
  ["IR", "KP", "CU", "SY", "AF"]

/-- The countryPairLimits object of getCrossBorderLimit (the default entry is
the final fallback below). -/
def countryPairLimits : List (String × ℚ) :=
  [("US-GB", 100000000), ("US-DE", 100000000), ("US-JP", 75000000),
   ("US-IN", 50000000), ("US-SG", 100000000), ("GB-DE", 100000000),
   ("DE-JP", 75000000)]

/-- ForteSDKManager.getCrossBorderLimit: key buyer-seller, then seller-buyer,
then the 25000000 default (no table value is falsy, so || is plain fallback). -/
def getCrossBorderLimit (buyerCountry sellerCountry : String) : ℚ :=
  let key1 := buyerCountry ++ "-" ++ sellerCountry
  let key2 := sellerCountry ++ "-" ++ buyerCountry
  match List.lookup key1 countryPairLimits with
  | some v => v
  | none =>
      match List.lookup key2 countryPairLimits with
      | some v => v
      | none => 25000000

/-- ForteSDKManager.checkIndiaRBICompliance: compliant when the amount is at
most the 50000000 RBI limit (the reporting branch only logs). -/
def checkIndiaRBICompliance (pyusdAmount : ℚ) : Bool :=
  decide (pyusdAmount ≤ 50000000)

/-- Unordered match of a country pair (helper for the spec-side table). -/
def pairMatches (bc sc a b : String) : Bool :=
  (bc == a && sc == b) || (bc == b && sc == a)

/-- The corridor-limit table exactly as the specification claim words it:
100000000 for US-GB, US-DE, US-SG and GB-DE; 75000000 for US-JP and DE-JP;
50000000 for US-IN; 25000000 otherwise, in either direction of the pair.
Stated from the claim text, to be compared with getCrossBorderLimit. -/
def specCorridorLimit (bc sc : String) : ℚ :=
  if pairMatches bc sc "US" "GB" || pairMatches bc sc "US" "DE" ||
     pairMatches bc sc "US" "SG" || pairMatches bc sc "GB" "DE" then 100000000
  else if pairMatches bc sc "US" "JP" || pairMatches bc sc "DE" "JP" then 75000000
  else if pairMatches bc sc "US" "IN" then 50000000
  else 25000000

/-- The pyusdAmount expression of rule 14: data.pyusdAmount || data.principalAmount || 0. -/
def rule14Amount (data : TransactionData) : ℚ :=
  qOr data.pyusdAmount (qOr data.principalAmount 0)

/-- The branch structure of rule 14 as a predicate of the two resolved
country codes and the resolved PYUSD amount. -/
def rule14Core (buyerCountry sellerCountry : String) (pyusdAmount : ℚ) : Bool :=
  if !(supportedCountries.contains buyerCountry) ||
     !(supportedCountries.contains sellerCountry) then false
  else if restrictedCountries.contains buyerCountry ||
          restrictedCountries.contains sellerCountry then false
  else
    let maxCrossBorderAmount := getCrossBorderLimit buyerCountry sellerCountry
    if decide (maxCrossBorderAmount < pyusdAmount) then false
    else if buyerCountry == "IN" || sellerCountry == "IN" then
      if !(checkIndiaRBICompliance pyusdAmount) then false
      else true
    else true

/-- Rule 14: cross-border PYUSD settlement compliance, with the US defaults
for falsy country fields. -/
def evaluateRule14 (data : TransactionData) : RuleResult :=
  { passed :=
      rule14Core (strOr data.buyerCountry "US") (strOr data.sellerCountry "US")
        (rule14Amount data) }

/-- One rule of a FORTE policy JSON (name and description are print-only). -/
structure Rule where
  ruleId : String
  action : String
deriving DecidableEq

/-- A FORTE policy: the rules array (zkPretIntegrations only drive logging). -/
structure Policy where
  rules : List Rule
deriving DecidableEq

/-- ForteSDKManager.evaluateRule: dispatch on ruleId; unknown rules fail.
A none is a thrown evaluation (caught by checkRules). -/
def evaluateRule (rule : Rule) (data : TransactionData) : Option RuleResult :=
  match rule.ruleId with
  | "RULE_01" => some (evaluateRule01 data)
  | "RULE_02" => some (evaluateRule02 data)
  | "RULE_03" => some (evaluateRule03 data)
  | "RULE_04" => some (evaluateRule04 data)
  | "RULE_05" => evaluateRule05 data
  | "RULE_06" => some (evaluateRule06 data)
  | "RULE_07" => some (evaluateRule07 data)
  | "RULE_08" => some (evaluateRule08 data)
  | "RULE_09" => some (evaluateRule09 data)
  | "RULE_10" => some (evaluateRule10 data)
  | "RULE_11" => some (evaluateRule11 data)
  | "RULE_12" => some (evaluateRule12 data)
  | "RULE_13" => some (evaluateRule13 data)
  | "RULE_14" => some (evaluateRule14 data)
  | _ => some { passed := false }

/-- Aggregate result of ForteSDKManager.checkRules. -/
structure CheckResult where
  compliant : Bool
  passedRules : List String
  failedRules : List String
  warnings : List String
deriving DecidableEq

/-- One iteration of the checkRules loop. A none evaluation is the catch
branch: the rule is recorded as failed and compliance is lost. -/
def checkStep (evalF : Rule → TransactionData → Option RuleResult)
    (data : TransactionData) (acc : CheckResult) (rule : Rule) : CheckResult :=
  match evalF rule data with
  | none =>
      { acc with compliant := false, failedRules := acc.failedRules ++ [rule.ruleId] }
  | some res =>
      if res.passed then
        { acc with passedRules := acc.passedRules ++ [rule.ruleId] }
      else if rule.action == "DENY" then
        { acc with compliant := false, failedRules := acc.failedRules ++ [rule.ruleId] }
      else if rule.action == "WARN" then
        { acc with warnings := acc.warnings ++ [rule.ruleId] }
      else if rule.action == "ADJUST" then
        { acc with warnings := acc.warnings ++ [rule.ruleId] }
      else acc

/-- ForteSDKManager.checkRules over an arbitrary rule evaluator (the evaluator
argument is the shallow embedding of the try/catch around this.evaluateRule). -/
def checkRulesWith (evalF : Rule → TransactionData → Option RuleResult)
    (policy : Policy) (data : TransactionData) : CheckResult :=
  policy.rules.foldl (checkStep evalF data) ⟨true, [], [], []⟩

/-- ForteSDKManager.checkRules with the concrete 14-rule evaluator. -/
def checkRules (policy : Policy) (data : TransactionData) : CheckResult :=
  checkRulesWith evaluateRule policy data

/-- Per-rule compliance condition: the evaluation did not throw, and a DENY
rule must have passed. -/
def ruleOK (evalF : Rule → TransactionData → Option RuleResult)
    (data : TransactionData) (rule : Rule) : Bool :=
  match evalF rule data with
  | none => false
  | some res => res.passed || !(rule.action == "DENY")

/-- Did the rule evaluate without throwing and pass? -/
def rulePassedB (evalF : Rule → TransactionData → Option RuleResult)
    (data : TransactionData) (rule : Rule) : Bool :=
  match evalF rule data with
  | none => false
  | some res => res.passed

/-- Is the rule recorded in failedRules (threw, or failed with action DENY)? -/
def ruleFailedB (evalF : Rule → TransactionData → Option RuleResult)
    (data : TransactionData) (rule : Rule) : Bool :=
  match evalF rule data with
  | none => true
  | some res => !res.passed && (rule.action == "DENY")

/-- Is the rule recorded in warnings (failed with action WARN or ADJUST)? -/
def ruleWarnB (evalF : Rule → TransactionData → Option RuleResult)
    (data : TransactionData) (rule : Rule) : Bool :=
  match evalF rule data with
  | none => false
  | some res =>
      !res.passed && !(rule.action == "DENY") &&
        (rule.action == "WARN" || rule.action == "ADJUST")

/-- quick-demo.ts FORTE rules check: the printed verdict of every rule is
Math.random() > 0.1, modelled as a function of the random draw. -/
def quickDemoRulePassed (randomValue : ℚ) : Bool :=
  decide ((1 / 10 : ℚ) < randomValue)

/-!
Solidity models. Addresses and bytes32 values are naturals; uint256
arithmetic is checked (Solidity 0.8): an overflowing or underflowing
operation reverts, modelled by none.
-/

/-- Checked uint256 addition. -/
def add256 (a b : ℕ) : Option ℕ :=
  if a + b < 2 ^ 256 then some (a + b) else none

/-- Checked uint256 subtraction. -/
def sub256 (a b : ℕ) : Option ℕ :=
  if b ≤ a then some (a - b) else none

/-- Checked uint256 multiplication. -/
def mul256 (a b : ℕ) : Option ℕ :=
  if a * b < 2 ^ 256 then some (a * b) else none

/-- Solidity require: none is a revert. -/
def requireB (b : Bool) : Option Unit :=
  if b then some () else none

/-- The mock sanctioned address 0x1111111111111111111111111111111111111111. -/
def sanctionedAddress : ℕ := 0x1111111111111111111111111111111111111111

/-- TradeStatus enum of PyusdCrossBorderFinance, in declaration order. -/
inductive TradeStatus where
  | INITIATED
  | COMPLIANCE_CHECK
  | LC_ISSUED
  | GOODS_SHIPPED
  | PYUSD_ESCROWED
  | SETTLEMENT_READY
  | SETTLED
  | DISPUTED
  | CANCELLED
deriving DecidableEq

/-- Position of a status in the linear enum order. -/
def statusRank : TradeStatus → ℕ
  | .INITIATED => 0
  | .COMPLIANCE_CHECK => 1
  | .LC_ISSUED => 2
  | .GOODS_SHIPPED => 3
  | .PYUSD_ESCROWED => 4
  | .SETTLEMENT_READY => 5
  | .SETTLED => 6
  | .DISPUTED => 7
  | .CANCELLED => 8

/-- CrossBorderTrade struct; the defaults are the zero values of a fresh
storage slot (enum zero is INITIATED). -/
structure CrossBorderTrade where
  tradeId : ℕ := 0
  buyer : ℕ := 0
  seller : ℕ := 0
  buyerBank : ℕ := 0
  sellerBank : ℕ := 0
  pyusdAmount : ℕ := 0
  localAmount : ℕ := 0
  localCurrency : String := ""
  buyerCountry : String := ""
  sellerCountry : String := ""
  letterOfCreditHash : ℕ := 0
  gleifVerified : Bool := false
  complianceCleared : Bool := false
  status : TradeStatus := .INITIATED
  createdAt : ℕ := 0
  settledAt : ℕ := 0
deriving DecidableEq

/-- Storage of PyusdCrossBorderFinance. -/
structure FinState where
  trades : ℕ → CrossBorderTrade
  userTrades : ℕ → List ℕ
  exchangeRates : String → ℕ
  nextTradeId : ℕ

/-- External world of one transaction: caller, block timestamp, and the
results of the external zkPretAdapter and PYUSD token calls. -/
structure FinEnv where
  sender : ℕ
  timestamp : ℕ
  gleifOK : String → Bool
  dcsaOK : ℕ → Bool
  transferFromOk : Bool
  transferOk : ℕ → ℕ → Bool

/-- The constructor of PyusdCrossBorderFinance: empty storage plus the five
hardcoded exchange rates (scaled by 1e6). -/
def finConstructor : FinState :=
  { trades := fun _ => {}
    userTrades := fun _ => []
    exchangeRates := fun c =>
      if c = "USD" then 1000000
      else if c = "EUR" then 1100000
      else if c = "GBP" then 1250000
      else if c = "JPY" then 6700
      else if c = "CNY" then 140000
      else 0
    nextTradeId := 0 }

/-- _convertToPYUSD: localAmount * rate / 1e6 with an unsupported-currency
revert and checked multiplication. -/
def convertToPYUSD (s : FinState) (localAmount : ℕ) (currency : String) :
    Option ℕ := do
  let rate := s.exchangeRates currency
  let _ ← requireB (decide (0 < rate))
  let prod ← mul256 localAmount rate
  some (prod / 1000000)

/-- _isOnSanctionsList. -/
def isOnSanctionsList (account : ℕ) : Bool :=
  account == sanctionedAddress

/-- _validateCrossBorderCompliance: the keccak comparison against "IR" is
string equality (keccak256 is collision-free on these country codes). -/
def validateCrossBorderCompliance (buyerCountry sellerCountry : String) : Bool :=
  !(buyerCountry == "IR") && !(sellerCountry == "IR")

/-- Arguments of initiateCrossBorderTrade. -/
structure InitiateParams where
  seller : ℕ
  buyerBank : ℕ
  sellerBank : ℕ
  localAmount : ℕ
  localCurrency : String
  buyerCountry : String
  sellerCountry : String
  letterOfCreditHash : ℕ
  buyerLEI : String
  sellerLEI : String
deriving DecidableEq

/-- Push a trade id onto one user's trade list. -/
def pushUserTrade (f : ℕ → List ℕ) (a tid : ℕ) : ℕ → List ℕ :=
  fun x => if x = a then f x ++ [tid] else f x

/-- onlyTradeParticipant modifier. -/
def isParticipant (env : FinEnv) (trade : CrossBorderTrade) : Bool :=
  env.sender == trade.buyer || env.sender == trade.seller ||
    env.sender == trade.buyerBank || env.sender == trade.sellerBank

/-- initiateCrossBorderTrade: GLEIF, sanctions and cross-border checks, the
$1,000 minimum, then a fresh INITIATED trade (fields not assigned by the
function keep the prior storage slot contents). -/
def initiateCrossBorderTrade (env : FinEnv) (s : FinState)
    (p : InitiateParams) : Option FinState := do
  let _ ← requireB (env.gleifOK p.buyerLEI && env.gleifOK p.sellerLEI)
  let _ ← requireB (!(isOnSanctionsList env.sender))
  let _ ← requireB (!(isOnSanctionsList p.seller))
  let _ ← requireB (validateCrossBorderCompliance p.buyerCountry p.sellerCountry)
  let pyusdAmount ← convertToPYUSD s p.localAmount p.localCurrency
  let _ ← requireB (decide (1000 * 1000000 ≤ pyusdAmount))
  let tradeId := s.nextTradeId
  let next ← add256 s.nextTradeId 1
  let trade : CrossBorderTrade :=
    { s.trades tradeId with
        tradeId := tradeId
        buyer := env.sender
        seller := p.seller
        buyerBank := p.buyerBank
        sellerBank := p.sellerBank
        pyusdAmount := pyusdAmount
        localAmount := p.localAmount
        localCurrency := p.localCurrency
        buyerCountry := p.buyerCountry
        sellerCountry := p.sellerCountry
        letterOfCreditHash := p.letterOfCreditHash
        status := .INITIATED
        createdAt := env.timestamp }
  let ut := pushUserTrade (pushUserTrade (pushUserTrade
    (pushUserTrade s.userTrades env.sender tradeId) p.seller tradeId)
    p.buyerBank tradeId) p.sellerBank tradeId
  some { s with
    trades := fun i => if i = tradeId then trade else s.trades i
    userTrades := ut
    nextTradeId := next }

/-- executeComplianceCheck: INITIATED trade plus DCSA-verified letter of
credit moves to COMPLIANCE_CHECK with both compliance flags set. -/
def executeComplianceCheck (env : FinEnv) (s : FinState) (tradeId : ℕ) :
    Option FinState := do
  let trade := s.trades tradeId
  let _ ← requireB (isParticipant env trade)
  let _ ← requireB (trade.status == .INITIATED)
  let _ ← requireB (env.dcsaOK trade.letterOfCreditHash)
  let trade2 :=
    { trade with gleifVerified := true, complianceCleared := true,
                 status := .COMPLIANCE_CHECK }
  some { s with trades := fun i => if i = tradeId then trade2 else s.trades i }

/-- escrowPYUSD: COMPLIANCE_CHECK and compliant trade whose PYUSD transferFrom
succeeds moves to PYUSD_ESCROWED. -/
def escrowPYUSD (env : FinEnv) (s : FinState) (tradeId : ℕ) :
    Option FinState := do
  let trade := s.trades tradeId
  let _ ← requireB (isParticipant env trade)
  let _ ← requireB (trade.status == .COMPLIANCE_CHECK)
  let _ ← requireB trade.complianceCleared
  let _ ← requireB env.transferFromOk
  some { s with trades := fun i =>
    if i = tradeId then { trade with status := .PYUSD_ESCROWED } else s.trades i }

/-- executeInstantSettlement: PYUSD_ESCROWED trade, final sanctions check,
fee transfers, then SETTLED with settledAt = block.timestamp. -/
def executeInstantSettlement (env : FinEnv) (s : FinState) (tradeId : ℕ) :
    Option FinState := do
  let trade := s.trades tradeId
  let _ ← requireB (isParticipant env trade)
  let _ ← requireB (trade.status == .PYUSD_ESCROWED)
  let _ ← requireB (!(isOnSanctionsList trade.seller))
  let p98 ← mul256 trade.pyusdAmount 98
  let sellerAmount := p98 / 100
  let pb ← mul256 trade.pyusdAmount 1
  let buyerBankFee := pb / 100
  let ps ← mul256 trade.pyusdAmount 1
  let sellerBankFee := ps / 100
  let _ ← requireB (env.transferOk trade.seller sellerAmount)
  let _ ← requireB (env.transferOk trade.buyerBank buyerBankFee)
  let _ ← requireB (env.transferOk trade.sellerBank sellerBankFee)
  some { s with trades := fun i =>
    if i = tradeId then
      { trade with status := .SETTLED, settledAt := env.timestamp }
    else s.trades i }

/-- updateExchangeRate: unguarded write into the exchange-rate table. -/
def updateExchangeRate (s : FinState) (currency : String) (rate : ℕ) : FinState :=
  { s with exchangeRates := fun c => if c = currency then rate else s.exchangeRates c }

/-- initiateCrossChainTrade: demo-only, requires SETTLED, changes no storage. -/
def initiateCrossChainTrade (env : FinEnv) (s : FinState) (tradeId : ℕ) :
    Option FinState := do
  let trade := s.trades tradeId
  let _ ← requireB (isParticipant env trade)
  let _ ← requireB (trade.status == .SETTLED)
  some s

/-- getSettlementComparison: for a settled trade both subtractions are
checked uint256 arithmetic; for an unsettled trade the named returns stay 0. -/
def getSettlementComparison (s : FinState) (tradeId : ℕ) :
    Option (ℕ × ℕ × ℕ × ℕ) :=
  let trade := s.trades tradeId
  if 0 < trade.settledAt then do
    let pyusdSettlementTime ← sub256 trade.settledAt trade.createdAt
    let traditionalEstimate := 3 * 24 * 60 * 60
    let timeSaved ← sub256 traditionalEstimate pyusdSettlementTime
    some (pyusdSettlementTime, traditionalEstimate, timeSaved, 40 * 1000000)
  else some (0, 0, 0, 0)

/-- The state-changing entry points of PyusdCrossBorderFinance. -/
inductive FinOp where
  | initiate (p : InitiateParams)
  | complianceCheck (tradeId : ℕ)
  | escrow (tradeId : ℕ)
  | settle (tradeId : ℕ)
  | updateRate (currency : String) (rate : ℕ)
  | crossChain (tradeId destinationChainId destinationContract : ℕ)
deriving DecidableEq

/-- One external call of PyusdCrossBorderFinance. -/
def finStep (env : FinEnv) (s : FinState) : FinOp → Option FinState
  | .initiate p => initiateCrossBorderTrade env s p
  | .complianceCheck tid => executeComplianceCheck env s tid
  | .escrow tid => escrowPYUSD env s tid
  | .settle tid => executeInstantSettlement env s tid
  | .updateRate c r => some (updateExchangeRate s c r)
  | .crossChain tid _ _ => initiateCrossChainTrade env s tid

/-- Is the operation the updateExchangeRate entry point? -/
def isUpdateRate : FinOp → Bool
  | .updateRate _ _ => true
  | _ => false

/-- Storage invariant: slots at or above nextTradeId are still zero-valued. -/
def freshTrades (s : FinState) : Prop :=
  ∀ tid, s.nextTradeId ≤ tid → s.trades tid = {}

/-! InstitutionalAsset security token (src/unnamed/part_000). -/

/-- AssetStatus enum of InstitutionalAssetParams, in declaration order. -/
inductive AssetStatus where
  | PENDING_VERIFICATION
  | COMPLIANCE_REVIEW
  | APPROVED
  | ACTIVE
  | MATURED
  | DEFAULT
  | LIQUIDATED
deriving DecidableEq

/-- The fields of InstitutionalAssetParams.InstitutionalAsset that the token
contract reads (the remaining struct fields are carried but never used). -/
structure AssetParams where
  corporateName : String
  totalFractions : ℕ
  minimumFractionSize : ℕ
  manager : ℕ
  status : AssetStatus
deriving DecidableEq

/-- Storage of InstitutionalAsset. -/
structure TokenState where
  name : String
  symbol : String
  totalSupply : ℕ
  assetStatus : AssetStatus
  lastUpdated : ℕ
  balances : ℕ → ℕ
  allowances : ℕ → ℕ → ℕ
  holders : List ℕ
  isHolder : ℕ → Bool
  whitelistedInvestors : ℕ → Bool
  investorClasses : ℕ → ℕ
  transfersEnabled : Bool
  manager : ℕ
  minimumFractionSize : ℕ

/-- Caller and block context of one token transaction. -/
structure TokenEnv where
  sender : ℕ
  timestamp : ℕ

/-- _extractSymbol: first three characters, or the IAT default. -/
def extractSymbol (corporateName : String) : String :=
  if 3 ≤ corporateName.length then String.mk (corporateName.toList.take 3)
  else "IAT"

/-- The InstitutionalAsset constructor: mints totalFractions * 1e18 to the
manager, whitelists the manager as institutional, enables transfers. -/
def tokenConstructor (p : AssetParams) : Option TokenState := do
  let ts ← mul256 p.totalFractions 1000000000000000000
  some
    { name := p.corporateName ++ " Institutional Asset"
      symbol := "IA-" ++ extractSymbol p.corporateName
      totalSupply := ts
      assetStatus := p.status
      lastUpdated := 0
      balances := fun a => if a = p.manager then ts else 0
      allowances := fun _ _ => 0
      holders := [p.manager]
      isHolder := fun a => a == p.manager
      whitelistedInvestors := fun a => a == p.manager
      investorClasses := fun a => if a = p.manager then 2 else 0
      transfersEnabled := true
      manager := p.manager
      minimumFractionSize := p.minimumFractionSize }

/-- The _removeHolder loop body: replace the first occurrence with the last
array element and pop; the Bool reports whether the break was reached. -/
def removeHolderFrom (holders : List ℕ) (holder : ℕ) : List ℕ × Bool :=
  match holders.findIdx? (fun y => y == holder) with
  | none => (holders, false)
  | some i => ((holders.set i (holders.getLast?.getD 0)).dropLast, true)

/-- _removeHolder: requires the holder flag, then swap-pop removal. -/
def removeHolder (s : TokenState) (holder : ℕ) : Option TokenState := do
  let _ ← requireB (s.isHolder holder)
  let (l2, found) := removeHolderFrom s.holders holder
  some { s with
    holders := l2
    isHolder := if found then fun a => if a = holder then false else s.isHolder a
                else s.isHolder }

/-- _checkCrossBorderCompliance: mock, always compliant. -/
def checkCrossBorderCompliance (_fromAddr _toAddr : ℕ) : Bool := true

/-- _transfer: zero-address and balance checks, the two balance writes in
source order, holder-list bookkeeping, removal on empty source balance. -/
def transferInternal (s : TokenState) (fromAddr toAddr amount : ℕ) :
    Option TokenState := do
  let _ ← requireB (!(fromAddr == 0))
  let _ ← requireB (!(toAddr == 0))
  let _ ← requireB (decide (amount ≤ s.balances fromAddr))
  let bal1 : ℕ → ℕ :=
    fun a => if a = fromAddr then s.balances fromAddr - amount else s.balances a
  let newTo ← add256 (bal1 toAddr) amount
  let bal2 : ℕ → ℕ := fun a => if a = toAddr then newTo else bal1 a
  let s1 := { s with balances := bal2 }
  let s2 :=
    if s1.isHolder toAddr then s1
    else
      { s1 with
          holders := s1.holders ++ [toAddr]
          isHolder := fun a => if a = toAddr then true else s1.isHolder a }
  if bal2 fromAddr = 0 then removeHolder s2 fromAddr else some s2

/-- transfer: transfersAllowed and whitelist modifiers, rules 2/3/10, then
_transfer from the caller. -/
def tokenTransfer (env : TokenEnv) (s : TokenState) (toAddr amount : ℕ) :
    Option TokenState := do
  let _ ← requireB s.transfersEnabled
  let _ ← requireB (s.whitelistedInvestors env.sender)
  let _ ← requireB (s.whitelistedInvestors toAddr)
  let _ ← requireB (!(isOnSanctionsList toAddr))
  let _ ← requireB (checkCrossBorderCompliance env.sender toAddr)
  let _ ← requireB (decide (s.minimumFractionSize ≤ amount))
  transferInternal s env.sender toAddr amount

/-- transferFrom: the same checks plus the allowance check and decrement. -/
def tokenTransferFrom (env : TokenEnv) (s : TokenState)
    (fromAddr toAddr amount : ℕ) : Option TokenState := do
  let _ ← requireB s.transfersEnabled
  let _ ← requireB (s.whitelistedInvestors fromAddr)
  let _ ← requireB (s.whitelistedInvestors toAddr)
  let currentAllowance := s.allowances fromAddr env.sender
  let _ ← requireB (decide (amount ≤ currentAllowance))
  let _ ← requireB (!(isOnSanctionsList toAddr))
  let _ ← requireB (checkCrossBorderCompliance fromAddr toAddr)
  let _ ← requireB (decide (s.minimumFractionSize ≤ amount))
  let s1 :=
    { s with allowances := fun o sp =>
        if o = fromAddr then
          if sp = env.sender then currentAllowance - amount else s.allowances o sp
        else s.allowances o sp }
  transferInternal s1 fromAddr toAddr amount

/-- approve: unconditional allowance write. -/
def tokenApprove (env : TokenEnv) (s : TokenState) (spender amount : ℕ) :
    TokenState :=
  { s with allowances := fun o sp =>
      if o = env.sender then
        if sp = spender then amount else s.allowances o sp
      else s.allowances o sp }

/-- whitelistInvestor: onlyManager, investor class at most 2. -/
def whitelistInvestor (env : TokenEnv) (s : TokenState) (investor cls : ℕ) :
    Option TokenState := do
  let _ ← requireB (env.sender == s.manager)
  let _ ← requireB (decide (cls ≤ 2))
  some { s with
    whitelistedInvestors := fun a => if a = investor then true else s.whitelistedInvestors a
    investorClasses := fun a => if a = investor then cls else s.investorClasses a }

/-- emergencyPause: onlyManager circuit breaker. -/
def emergencyPause (env : TokenEnv) (s : TokenState) : Option TokenState := do
  let _ ← requireB (env.sender == s.manager)
  some { s with transfersEnabled := false }

/-- resumeTransfers: onlyManager. -/
def resumeTransfers (env : TokenEnv) (s : TokenState) : Option TokenState := do
  let _ ← requireB (env.sender == s.manager)
  some { s with transfersEnabled := true }

/-- updateAssetStatus: onlyManager; DEFAULT auto-pauses transfers. -/
def updateAssetStatus (env : TokenEnv) (s : TokenState)
    (newStatus : AssetStatus) : Option TokenState := do
  let _ ← requireB (env.sender == s.manager)
  some { s with
    assetStatus := newStatus
    lastUpdated := env.timestamp
    transfersEnabled :=
      if newStatus = .DEFAULT then false else s.transfersEnabled }

/-- The state-changing entry points of InstitutionalAsset. -/
inductive TokenOp where
  | transferOp (toAddr amount : ℕ)
  | transferFromOp (fromAddr toAddr amount : ℕ)
  | approveOp (spender amount : ℕ)
  | whitelistOp (investor cls : ℕ)
  | pauseOp
  | resumeOp
  | statusOp (newStatus : AssetStatus)
deriving DecidableEq

/-- One external call of InstitutionalAsset. -/
def tokenStep (env : TokenEnv) (s : TokenState) : TokenOp → Option TokenState
  | .transferOp toAddr amount => tokenTransfer env s toAddr amount
  | .transferFromOp fromAddr toAddr amount => tokenTransferFrom env s fromAddr toAddr amount
  | .approveOp spender amount => some (tokenApprove env s spender amount)
  | .whitelistOp investor cls => whitelistInvestor env s investor cls
  | .pauseOp => emergencyPause env s
  | .resumeOp => resumeTransfers env s
  | .statusOp newStatus => updateAssetStatus env s newStatus

/-- Does the operation go through _transfer? -/
def isTransferOp : TokenOp → Bool
  | .transferOp _ _ => true
  | .transferFromOp _ _ _ => true
  | _ => false

/-- Run a sequence of calls, each with its own caller and timestamp. -/
def runToken (s : TokenState) : List (TokenEnv × TokenOp) → Option TokenState
  | [] => some s
  | (env, op) :: rest => do
      let s' ← tokenStep env s op
      runToken s' rest

/-- Balance-sheet invariant: balances vanish outside a finite address set
whose balance total is the recorded totalSupply. -/
def balancesInv (s : TokenState) : Prop :=
  ∃ S : Finset ℕ, (∀ a ∉ S, s.balances a = 0) ∧
    (∑ a ∈ S, s.balances a) = s.totalSupply

/-! Concrete fixtures used to instantiate the theorems below on closed inputs. -/

/-- Fixture: a benign caller with cooperating external services. -/
def demoFinEnv : FinEnv :=
  { sender := 5
    timestamp := 1000
    gleifOK := fun _ => true
    dcsaOK := fun _ => true
    transferFromOk := true
    transferOk := fun _ _ => true }

/-- Fixture: arguments for a USD 2000 cross-border trade. -/
def demoInitParams : InitiateParams :=
  { seller := 7
    buyerBank := 8
    sellerBank := 9
    localAmount := 2000000000
    localCurrency := "USD"
    buyerCountry := "US"
    sellerCountry := "GB"
    letterOfCreditHash := 42
    buyerLEI := "HWUPKR0MPOU8FGXBT394"
    sellerLEI := "HWUPKR0MPOU8FGXBT395" }

/-- Fixture: storage holding one INITIATED trade with buyer 5. -/
def demoTradeState : FinState :=
  { finConstructor with
      trades := fun i =>
        if i = 0 then
          { tradeId := 0, buyer := 5, seller := 7, buyerBank := 8,
            sellerBank := 9, pyusdAmount := 2000000000, localAmount := 2000000000,
            localCurrency := "USD", buyerCountry := "US", sellerCountry := "GB",
            letterOfCreditHash := 42, status := .INITIATED, createdAt := 100 }
        else {}
      nextTradeId := 1 }

/-- Fixture: storage holding one trade settled 300000 seconds after creation. -/
def demoSettledState : FinState :=
  { finConstructor with
      trades := fun i =>
        if i = 0 then
          { tradeId := 0, buyer := 5, status := .SETTLED,
            createdAt := 100, settledAt := 300100 }
        else {}
      nextTradeId := 1 }

/-- Fixture: asset parameters for the token constructor. -/
def demoAssetParams : AssetParams :=
  { corporateName := "APPLE INC"
    totalFractions := 5000
    minimumFractionSize := 500
    manager := 5
    status := .ACTIVE }

/-- Fixture: the token manager as caller. -/
def demoTokenEnv : TokenEnv :=
  { sender := 5, timestamp := 2000 }

/-- Fixture: an evaluator passing exactly rule R1. -/
def demoEvalF : Rule → TransactionData → Option RuleResult :=
  fun r _ => if r.ruleId = "R1" then some ⟨true⟩ else some ⟨false⟩

/-- Fixture: a two-rule policy with a DENY and a WARN rule. -/
def demoPolicy : Policy :=
  ⟨[⟨"R1", "DENY"⟩, ⟨"R2", "WARN"⟩]⟩

end RWADemo

/-! Theorems. -/

namespace RWADemo

/-- C2 counterexample: verifyGLEIF is not equivalent to the length-20 test.
The 20-character LEI "INVALID0000000000000" has length 20 yet fails the
verification, because the source also rejects any LEI containing "INVALID". -/
theorem verifyGLEIF_not_length_only :
    ¬ (((verifyGLEIF "INVALID0000000000000" "ACME CORP").verified = true) ↔
        ("INVALID0000000000000" : String).length = 20) := by
  decide

/-- C2 (amended): verifyGLEIF returns verified = true exactly when the LEI has
length 20 and does not contain the substring "INVALID"; the corporateName
argument is irrelevant. -/
theorem verifyGLEIF_verified_iff (lei corporateName : String) :
    (verifyGLEIF lei corporateName).verified = true ↔
      (lei.length = 20 ∧ jsIncludes lei "INVALID" = false) := by
  simp [verifyGLEIF, Bool.and_eq_true, Bool.not_eq_true']

/-- C7: the quick-demo per-rule verdict is passed iff the Math.random() draw
exceeds 0.1, hence it is not a function of the asset data: two draws in
[0, 1) give different printed verdicts for the same input. -/
theorem quickDemo_verdict_is_random :
    (∀ r : ℚ, quickDemoRulePassed r = true ↔ (1 / 10 : ℚ) < r) ∧
    ∃ r₁ r₂ : ℚ, 0 ≤ r₁ ∧ r₁ < 1 ∧ 0 ≤ r₂ ∧ r₂ < 1 ∧
      quickDemoRulePassed r₁ ≠ quickDemoRulePassed r₂ := by
  constructor
  · intro r; simp [quickDemoRulePassed]
  · have h1 : quickDemoRulePassed (1 / 2) = true := by
      simp [quickDemoRulePassed]
      norm_num
    have h2 : quickDemoRulePassed 0 = false := by
      simp [quickDemoRulePassed]
    exact ⟨1 / 2, 0, by norm_num, by norm_num, le_refl 0, by norm_num, by
      rw [h1, h2]; simp⟩

/-- evaluateRule08 reads only the optimalCount field. -/
theorem evaluateRule08_passed_eq (data : TransactionData) :
    (evaluateRule08 data).passed =
      (match (calculateOptimalFractions data.principalAmount data.assetType).optimalCount with
       | some c => decide (10 ≤ c) && decide (c ≤ 10000)
       | none => false) := rfl

/-- C8: for a present, non-negative numeric principalAmount the optimal
fraction count is clamped into [10, 10000], so rule 8 always passes. -/
theorem rule08_never_fails (data : TransactionData) (p : ℚ)
    (hp : data.principalAmount = some p) (_hpos : 0 ≤ p) :
    ∃ c : ℤ,
      (calculateOptimalFractions data.principalAmount data.assetType).optimalCount = some c ∧
      10 ≤ c ∧ c ≤ 10000 ∧ (evaluateRule08 data).passed = true := by
  have h1 : (10 : ℤ) ≤ max 10 (min 10000 ⌊p / assetTypeMultiplier data.assetType⌋) :=
    le_max_left _ _
  have h2 : max 10 (min 10000 ⌊p / assetTypeMultiplier data.assetType⌋) ≤ 10000 :=
    max_le (by norm_num) (min_le_left _ _)
  have hopt : (calculateOptimalFractions data.principalAmount data.assetType).optimalCount =
      some (max 10 (min 10000 ⌊p / assetTypeMultiplier data.assetType⌋)) := by
    rw [hp]; rfl
  refine ⟨_, hopt, h1, h2, ?_⟩
  rw [evaluateRule08_passed_eq, hopt]
  simp only [Bool.and_eq_true, decide_eq_true_eq]
  exact ⟨h1, h2⟩

/-- C8 witness: rule 8 on a concrete $5M supply-chain invoice. -/
theorem rule08_never_fails_witness :
    ∃ c : ℤ,
      (calculateOptimalFractions
        (TransactionData.principalAmount
          { principalAmount := some 5000000, assetType := some "SUPPLY_CHAIN_INVOICE" })
        (TransactionData.assetType
          { principalAmount := some 5000000, assetType := some "SUPPLY_CHAIN_INVOICE" })).optimalCount = some c ∧
      10 ≤ c ∧ c ≤ 10000 ∧
      (evaluateRule08
        { principalAmount := some 5000000, assetType := some "SUPPLY_CHAIN_INVOICE" }).passed = true :=
  rule08_never_fails
    { principalAmount := some 5000000, assetType := some "SUPPLY_CHAIN_INVOICE" }
    5000000 rfl (by norm_num)

/-- The compliant flag after one loop iteration. -/
theorem checkStep_compliant (f : Rule → TransactionData → Option RuleResult)
    (d : TransactionData) (acc : CheckResult) (r : Rule) :
    (checkStep f d acc r).compliant = (acc.compliant && ruleOK f d r) := by
  unfold checkStep ruleOK
  cases hf : f r d with
  | none => simp
  | some res =>
      cases hp : res.passed with
      | true => simp [hp]
      | false =>
          by_cases hd : r.action = "DENY"
          · simp [hp, hd]
          · by_cases hw : r.action = "WARN"
            · simp [hp, hd, hw]
            · by_cases ha : r.action = "ADJUST"
              · simp [hp, hd, hw, ha]
              · simp [hp, hd, hw, ha]

/-- The passedRules list after one loop iteration. -/
theorem checkStep_passedRules (f : Rule → TransactionData → Option RuleResult)
    (d : TransactionData) (acc : CheckResult) (r : Rule) :
    (checkStep f d acc r).passedRules =
      acc.passedRules ++ (if rulePassedB f d r then [r.ruleId] else []) := by
  unfold checkStep rulePassedB
  cases hf : f r d with
  | none => simp
  | some res =>
      cases hp : res.passed with
      | true => simp [hp]
      | false =>
          by_cases hd : r.action = "DENY"
          · simp [hp, hd]
          · by_cases hw : r.action = "WARN"
            · simp [hp, hd, hw]
            · by_cases ha : r.action = "ADJUST"
              · simp [hp, hd, hw, ha]
              · simp [hp, hd, hw, ha]

/-- The failedRules list after one loop iteration. -/
theorem checkStep_failedRules (f : Rule → TransactionData → Option RuleResult)
    (d : TransactionData) (acc : CheckResult) (r : Rule) :
    (checkStep f d acc r).failedRules =
      acc.failedRules ++ (if ruleFailedB f d r then [r.ruleId] else []) := by
  unfold checkStep ruleFailedB
  cases hf : f r d with
  | none => simp
  | some res =>
      cases hp : res.passed with
      | true => simp [hp]
      | false =>
          by_cases hd : r.action = "DENY"
          · simp [hp, hd]
          · by_cases hw : r.action = "WARN"
            · simp [hp, hd, hw]
            · by_cases ha : r.action = "ADJUST"
              · simp [hp, hd, hw, ha]
              · simp [hp, hd, hw, ha]

/-- The warnings list after one loop iteration. -/
theorem checkStep_warnings (f : Rule → TransactionData → Option RuleResult)
    (d : TransactionData) (acc : CheckResult) (r : Rule) :
    (checkStep f d acc r).warnings =
      acc.warnings ++ (if ruleWarnB f d r then [r.ruleId] else []) := by
  unfold checkStep ruleWarnB
  cases hf : f r d with
  | none => simp
  | some res =>
      cases hp : res.passed with
      | true => simp [hp]
      | false =>
          by_cases hd : r.action = "DENY"
          · simp [hp, hd]
          · by_cases hw : r.action = "WARN"
            · simp [hp, hd, hw]
            · by_cases ha : r.action = "ADJUST"
              · simp [hp, hd, hw, ha]
              · simp [hp, hd, hw, ha]

/-- Closed form of the compliant flag of the whole loop. -/
theorem checkRules_foldl_compliant (f : Rule → TransactionData → Option RuleResult)
    (d : TransactionData) (rules : List Rule) (acc : CheckResult) :
    (List.foldl (checkStep f d) acc rules).compliant =
      (acc.compliant && rules.all (ruleOK f d)) := by
  induction rules generalizing acc with
  | nil => simp
  | cons r rs ih =>
      rw [List.foldl_cons, ih, List.all_cons, checkStep_compliant, Bool.and_assoc]

/-- Closed form of the passedRules list of the whole loop. -/
theorem checkRules_foldl_passed (f : Rule → TransactionData → Option RuleResult)
    (d : TransactionData) (rules : List Rule) (acc : CheckResult) :
    (List.foldl (checkStep f d) acc rules).passedRules =
      acc.passedRules ++ (rules.filter (rulePassedB f d)).map Rule.ruleId := by
  induction rules generalizing acc with
  | nil => simp
  | cons r rs ih =>
      rw [List.foldl_cons, ih, checkStep_passedRules, List.filter_cons]
      cases hb : rulePassedB f d r <;> simp [hb]

/-- Closed form of the failedRules list of the whole loop. -/
theorem checkRules_foldl_failed (f : Rule → TransactionData → Option RuleResult)
    (d : TransactionData) (rules : List Rule) (acc : CheckResult) :
    (List.foldl (checkStep f d) acc rules).failedRules =
      acc.failedRules ++ (rules.filter (ruleFailedB f d)).map Rule.ruleId := by
  induction rules generalizing acc with
  | nil => simp
  | cons r rs ih =>
      rw [List.foldl_cons, ih, checkStep_failedRules, List.filter_cons]
      cases hb : ruleFailedB f d r <;> simp [hb]

/-- Closed form of the warnings list of the whole loop. -/
theorem checkRules_foldl_warnings (f : Rule → TransactionData → Option RuleResult)
    (d : TransactionData) (rules : List Rule) (acc : CheckResult) :
    (List.foldl (checkStep f d) acc rules).warnings =
      acc.warnings ++ (rules.filter (ruleWarnB f d)).map Rule.ruleId := by
  induction rules generalizing acc with
  | nil => simp
  | cons r rs ih =>
      rw [List.foldl_cons, ih, checkStep_warnings, List.filter_cons]
      cases hb : ruleWarnB f d r <;> simp [hb]

/-- Pointwise reading of the per-rule compliance condition. -/
theorem ruleOK_iff (f : Rule → TransactionData → Option RuleResult)
    (d : TransactionData) (r : Rule) :
    ruleOK f d r = true ↔
      (f r d ≠ none ∧
        (r.action = "DENY" → ∃ res, f r d = some res ∧ res.passed = true)) := by
  unfold ruleOK
  cases hf : f r d with
  | none => simp
  | some res =>
      cases hp : res.passed with
      | true => simp [hp]
      | false =>
          by_cases hd : r.action = "DENY" <;> simp [hp, hd]

/-- A permutation does not change a Bool-valued all. -/
theorem all_eq_of_perm {α : Type} {l l' : List α} (h : l.Perm l') (p : α → Bool) :
    l.all p = l'.all p := by
  have hiff : (l.all p = true) ↔ (l'.all p = true) := by
    simp only [List.all_eq_true]
    exact ⟨fun hx x hm => hx x (h.mem_iff.mpr hm), fun hx x hm => hx x (h.mem_iff.mp hm)⟩
  exact Bool.coe_iff_coe.mp hiff

/-- C1: checkRules is compliant exactly when no rule evaluation throws and
every DENY rule passes; a failing WARN or ADJUST rule is recorded in the
warnings list and removing it does not change the verdict. -/
theorem checkRules_deny_gates_compliance
    (evalF : Rule → TransactionData → Option RuleResult) (policy : Policy)
    (data : TransactionData) :
    ((checkRulesWith evalF policy data).compliant = true ↔
      ((∀ r ∈ policy.rules, evalF r data ≠ none) ∧
       (∀ r ∈ policy.rules, r.action = "DENY" →
          ∃ res, evalF r data = some res ∧ res.passed = true))) ∧
    (∀ r ∈ policy.rules, ∀ res, evalF r data = some res → res.passed = false →
       (r.action = "WARN" ∨ r.action = "ADJUST") →
       r.ruleId ∈ (checkRulesWith evalF policy data).warnings ∧
       (checkRulesWith evalF policy data).compliant =
         (checkRulesWith evalF ⟨policy.rules.erase r⟩ data).compliant) := by
  constructor
  · unfold checkRulesWith
    rw [checkRules_foldl_compliant]
    simp only [Bool.true_and, List.all_eq_true]
    constructor
    · intro h
      exact ⟨fun r hr => ((ruleOK_iff evalF data r).mp (h r hr)).1,
             fun r hr => ((ruleOK_iff evalF data r).mp (h r hr)).2⟩
    · rintro ⟨h1, h2⟩ r hr
      exact (ruleOK_iff evalF data r).mpr ⟨h1 r hr, h2 r hr⟩
  · intro r hr res hres hp hact
    have hwB : ruleWarnB evalF data r = true := by
      rcases hact with h | h <;> simp [ruleWarnB, hres, hp, h]
    have hOK : ruleOK evalF data r = true := by
      rcases hact with h | h <;> simp [ruleOK, hres, hp, h]
    constructor
    · unfold checkRulesWith
      rw [checkRules_foldl_warnings]
      simp only [List.nil_append]
      exact List.mem_map.mpr ⟨r, List.mem_filter.mpr ⟨hr, hwB⟩, rfl⟩
    · unfold checkRulesWith
      rw [checkRules_foldl_compliant, checkRules_foldl_compliant]
      simp only [Bool.true_and]
      have hperm : policy.rules.Perm (r :: policy.rules.erase r) :=
        List.perm_cons_erase hr
      rw [all_eq_of_perm hperm, List.all_cons, hOK, Bool.true_and]

/-- C1 witness: a concrete policy with a passing DENY rule and a failing WARN
rule; the failing WARN rule lands in warnings and leaves the verdict as it
would be without it. -/
theorem checkRules_deny_gates_compliance_witness :
    ((⟨"R2", "WARN"⟩ : Rule).ruleId ∈
        (checkRulesWith demoEvalF demoPolicy {}).warnings) ∧
    (checkRulesWith demoEvalF demoPolicy {}).compliant =
      (checkRulesWith demoEvalF ⟨demoPolicy.rules.erase ⟨"R2", "WARN"⟩⟩ {}).compliant :=
  (checkRules_deny_gates_compliance demoEvalF demoPolicy {}).2
    ⟨"R2", "WARN"⟩ (by simp [demoPolicy]) ⟨false⟩ (by decide) rfl (Or.inl rfl)

/-- C3: rule evaluation is a pure function of the submitted transaction data,
so permuting the policy rules leaves the verdict unchanged and permutes the
recorded passed, failed and warning lists. -/
theorem checkRules_rule_order_irrelevant (p₁ p₂ : Policy)
    (data : TransactionData) (h : p₁.rules.Perm p₂.rules) :
    (checkRules p₁ data).compliant = (checkRules p₂ data).compliant ∧
    (checkRules p₁ data).passedRules.Perm (checkRules p₂ data).passedRules ∧
    (checkRules p₁ data).failedRules.Perm (checkRules p₂ data).failedRules ∧
    (checkRules p₁ data).warnings.Perm (checkRules p₂ data).warnings := by
  unfold checkRules checkRulesWith
  refine ⟨?_, ?_, ?_, ?_⟩
  · rw [checkRules_foldl_compliant, checkRules_foldl_compliant, all_eq_of_perm h]
  · rw [checkRules_foldl_passed, checkRules_foldl_passed]
    simpa using (h.filter (rulePassedB evaluateRule data)).map Rule.ruleId
  · rw [checkRules_foldl_failed, checkRules_foldl_failed]
    simpa using (h.filter (ruleFailedB evaluateRule data)).map Rule.ruleId
  · rw [checkRules_foldl_warnings, checkRules_foldl_warnings]
    simpa using (h.filter (ruleWarnB evaluateRule data)).map Rule.ruleId

/-- C3 witness: swapping two concrete rules of a policy. -/
theorem checkRules_rule_order_irrelevant_witness :
    (checkRules ⟨[⟨"RULE_03", "DENY"⟩, ⟨"RULE_11", "DENY"⟩]⟩ {}).compliant =
      (checkRules ⟨[⟨"RULE_11", "DENY"⟩, ⟨"RULE_03", "DENY"⟩]⟩ {}).compliant ∧
    (checkRules ⟨[⟨"RULE_03", "DENY"⟩, ⟨"RULE_11", "DENY"⟩]⟩ {}).passedRules.Perm
      (checkRules ⟨[⟨"RULE_11", "DENY"⟩, ⟨"RULE_03", "DENY"⟩]⟩ {}).passedRules ∧
    (checkRules ⟨[⟨"RULE_03", "DENY"⟩, ⟨"RULE_11", "DENY"⟩]⟩ {}).failedRules.Perm
      (checkRules ⟨[⟨"RULE_11", "DENY"⟩, ⟨"RULE_03", "DENY"⟩]⟩ {}).failedRules ∧
    (checkRules ⟨[⟨"RULE_03", "DENY"⟩, ⟨"RULE_11", "DENY"⟩]⟩ {}).warnings.Perm
      (checkRules ⟨[⟨"RULE_11", "DENY"⟩, ⟨"RULE_03", "DENY"⟩]⟩ {}).warnings :=
  checkRules_rule_order_irrelevant
    ⟨[⟨"RULE_03", "DENY"⟩, ⟨"RULE_11", "DENY"⟩]⟩
    ⟨[⟨"RULE_11", "DENY"⟩, ⟨"RULE_03", "DENY"⟩]⟩ {}
    (List.Perm.swap (⟨"RULE_11", "DENY"⟩ : Rule) ⟨"RULE_03", "DENY"⟩ [])

/-- No supported country is on the restricted list. -/
theorem supported_not_restricted :
    supportedCountries.all (fun c => !(restrictedCountries.contains c)) = true := by
  decide

/-- On supported country pairs the code table agrees with the claimed table. -/
theorem crossBorderLimit_agrees :
    supportedCountries.all (fun b => supportedCountries.all (fun s =>
      getCrossBorderLimit b s == specCorridorLimit b s)) = true := by
  decide

/-- On supported pairs involving IN, the code limit is within the RBI cap. -/
theorem crossBorderLimit_india_cap :
    supportedCountries.all (fun b => supportedCountries.all (fun s =>
      (!(b == "IN" || s == "IN")) ||
        decide (getCrossBorderLimit b s ≤ 50000000))) = true := by
  decide

/-- Characterization of the rule 14 branch structure: it passes exactly when
both countries are supported and the amount is within the claimed corridor
limit (the restricted-country branch is unreachable and the India RBI branch
is subsumed by the corridor limit). -/
theorem rule14Core_iff (b s : String) (amt : ℚ) :
    rule14Core b s amt = true ↔
      (b ∈ supportedCountries ∧ s ∈ supportedCountries ∧
        amt ≤ specCorridorLimit b s) := by
  by_cases hb : b ∈ supportedCountries
  · by_cases hs : s ∈ supportedCountries
    · have hcb : supportedCountries.contains b = true := List.elem_iff.mpr hb
      have hcs : supportedCountries.contains s = true := List.elem_iff.mpr hs
      have hrb : restrictedCountries.contains b = false := by
        have h := List.all_eq_true.mp supported_not_restricted b hb
        simpa using h
      have hrs : restrictedCountries.contains s = false := by
        have h := List.all_eq_true.mp supported_not_restricted s hs
        simpa using h
      have hLeq : getCrossBorderLimit b s = specCorridorLimit b s := by
        have h := List.all_eq_true.mp (List.all_eq_true.mp crossBorderLimit_agrees b hb) s hs
        exact eq_of_beq h
      have hmain : rule14Core b s amt = decide (amt ≤ specCorridorLimit b s) := by
        unfold rule14Core
        rw [hcb, hcs, hrb, hrs]
        simp only [Bool.not_true, Bool.or_self, Bool.or_false, Bool.false_or,
          if_false, ite_false, Bool.false_eq_true]
        rw [hLeq]
        cases hd : decide (specCorridorLimit b s < amt) with
        | true =>
            have hlt := of_decide_eq_true hd
            simp [decide_eq_false (not_le.mpr hlt)]
        | false =>
            have hle : amt ≤ specCorridorLimit b s := not_lt.mp (of_decide_eq_false hd)
            rw [decide_eq_true hle]
            cases hin : (b == "IN" || s == "IN") with
            | true =>
                have h50 : specCorridorLimit b s ≤ 50000000 := by
                  have h := List.all_eq_true.mp
                    (List.all_eq_true.mp crossBorderLimit_india_cap b hb) s hs
                  rw [hin] at h
                  simpa [hLeq] using h
                have hrbi : checkIndiaRBICompliance amt = true :=
                  decide_eq_true (le_trans hle h50)
                simp [hrbi]
            | false => simp
      rw [hmain, decide_eq_true_eq]
      simp [hb, hs]
    · have hcs : supportedCountries.contains s = false := by
        simpa using fun h => hs (List.elem_iff.mp (by simpa using h))
      unfold rule14Core
      rw [hcs]
      simp [hs]
  · have hcb : supportedCountries.contains b = false := by
      simpa using fun h => hb (List.elem_iff.mp (by simpa using h))
    unfold rule14Core
    rw [hcb]
    simp [hb]

/-- C6: for present non-empty country fields, rule 14 passes exactly when
both countries are on the allow-list and the PYUSD amount is within the
claimed corridor limit, in either direction of the pair. -/
theorem rule14_pass_iff (data : TransactionData) (bc sc : String)
    (hbc : data.buyerCountry = some bc) (hbne : bc ≠ "")
    (hsc : data.sellerCountry = some sc) (hsne : sc ≠ "") :
    (evaluateRule14 data).passed = true ↔
      (bc ∈ supportedCountries ∧ sc ∈ supportedCountries ∧
        rule14Amount data ≤ specCorridorLimit bc sc) := by
  have hb : strOr data.buyerCountry "US" = bc := by
    rw [hbc]; simp [strOr, hbne]
  have hs2 : strOr data.sellerCountry "US" = sc := by
    rw [hsc]; simp [strOr, hsne]
  show rule14Core (strOr data.buyerCountry "US") (strOr data.sellerCountry "US")
      (rule14Amount data) = true ↔ _
  rw [hb, hs2]
  exact rule14Core_iff bc sc (rule14Amount data)

/-- C6 witness: a concrete US to IN trade of 5000000 PYUSD. -/
theorem rule14_pass_iff_witness :
    (evaluateRule14
        { buyerCountry := some "US", sellerCountry := some "IN",
          pyusdAmount := some 5000000 }).passed = true ↔
      ("US" ∈ supportedCountries ∧ "IN" ∈ supportedCountries ∧
        rule14Amount
          { buyerCountry := some "US", sellerCountry := some "IN",
            pyusdAmount := some 5000000 } ≤ specCorridorLimit "US" "IN") :=
  rule14_pass_iff
    { buyerCountry := some "US", sellerCountry := some "IN",
      pyusdAmount := some 5000000 }
    "US" "IN" rfl (by decide) rfl (by decide)

/-- C9: getSettlementComparison reverts by checked-subtraction underflow on
every settled trade whose settlement came more than 3 days after creation,
and returns four zeros when settledAt = 0. -/
theorem getSettlementComparison_underflow (s : FinState) (tradeId : ℕ) :
    (0 < (s.trades tradeId).settledAt →
      (s.trades tradeId).createdAt ≤ (s.trades tradeId).settledAt →
      3 * 24 * 60 * 60 < (s.trades tradeId).settledAt - (s.trades tradeId).createdAt →
      getSettlementComparison s tradeId = none) ∧
    ((s.trades tradeId).settledAt = 0 →
      getSettlementComparison s tradeId = some (0, 0, 0, 0)) := by
  constructor
  · intro h1 h2 h3
    have e1 : sub256 (s.trades tradeId).settledAt (s.trades tradeId).createdAt =
        some ((s.trades tradeId).settledAt - (s.trades tradeId).createdAt) := by
      simp [sub256, h2]
    have e2 : sub256 (3 * 24 * 60 * 60)
        ((s.trades tradeId).settledAt - (s.trades tradeId).createdAt) = none := by
      simp [sub256]; omega
    simp [getSettlementComparison, h1, e1, e2]
  · intro h0
    simp [getSettlementComparison, h0]

/-- C9 witness: a trade settled 300000 seconds (more than 3 days) after
creation makes the view revert, and an unsettled slot returns zeros. -/
theorem getSettlementComparison_underflow_witness :
    getSettlementComparison demoSettledState 0 = none ∧
    getSettlementComparison demoSettledState 1 = some (0, 0, 0, 0) :=
  ⟨(getSettlementComparison_underflow demoSettledState 0).1 (by decide) (by decide) (by decide),
   (getSettlementComparison_underflow demoSettledState 1).2 (by decide)⟩

/-- A require succeeds exactly when its condition holds. -/
theorem requireB_eq_some {b : Bool} {u : Unit} : requireB b = some u ↔ b = true := by
  cases b <;> simp [requireB]

/-- Inversion of a successful executeComplianceCheck call. -/
theorem executeComplianceCheck_some {env : FinEnv} {s : FinState} {tid : ℕ} {s' : FinState}
    (h : executeComplianceCheck env s tid = some s') :
    isParticipant env (s.trades tid) = true ∧
    (s.trades tid).status = .INITIATED ∧
    env.dcsaOK (s.trades tid).letterOfCreditHash = true ∧
    s' = { s with trades := fun i =>
            if i = tid then
              { s.trades tid with
                  gleifVerified := true
                  complianceCleared := true
                  status := .COMPLIANCE_CHECK }
            else s.trades i } := by
  unfold executeComplianceCheck at h
  simp only [Option.bind_eq_bind, Option.bind_eq_some, requireB_eq_some,
    Option.some_inj, beq_iff_eq] at h
  obtain ⟨_, h1, _, h2, _, h3, h4⟩ := h
  exact ⟨h1, h2, h3, h4.symm⟩


/-- Inversion of checked addition. -/
theorem add256_eq_some {a b c : ℕ} : add256 a b = some c ↔ (a + b < 2 ^ 256 ∧ c = a + b) := by
  unfold add256
  split <;> simp_all <;> omega

/-- Inversion of checked multiplication. -/
theorem mul256_eq_some {a b c : ℕ} : mul256 a b = some c ↔ (a * b < 2 ^ 256 ∧ c = a * b) := by
  unfold mul256
  split <;> simp_all <;> omega

/-- Inversion of a successful escrowPYUSD call. -/
theorem escrowPYUSD_some {env : FinEnv} {s : FinState} {tid : ℕ} {s' : FinState}
    (h : escrowPYUSD env s tid = some s') :
    isParticipant env (s.trades tid) = true ∧
    (s.trades tid).status = .COMPLIANCE_CHECK ∧
    (s.trades tid).complianceCleared = true ∧
    env.transferFromOk = true ∧
    s' = { s with trades := fun i =>
            if i = tid then { s.trades tid with status := .PYUSD_ESCROWED }
            else s.trades i } := by
  unfold escrowPYUSD at h
  simp only [Option.bind_eq_bind, Option.bind_eq_some, requireB_eq_some,
    Option.some_inj, beq_iff_eq] at h
  obtain ⟨_, h1, _, h2, _, h3, _, h4, h5⟩ := h
  exact ⟨h1, h2, h3, h4, h5.symm⟩

/-- Inversion of a successful executeInstantSettlement call. -/
theorem executeInstantSettlement_some {env : FinEnv} {s : FinState} {tid : ℕ} {s' : FinState}
    (h : executeInstantSettlement env s tid = some s') :
    isParticipant env (s.trades tid) = true ∧
    (s.trades tid).status = .PYUSD_ESCROWED ∧
    isOnSanctionsList (s.trades tid).seller = false ∧
    s' = { s with trades := fun i =>
            if i = tid then
              { s.trades tid with
                  status := .SETTLED
                  settledAt := env.timestamp }
            else s.trades i } := by
  unfold executeInstantSettlement at h
  simp only [Option.bind_eq_bind, Option.bind_eq_some, requireB_eq_some,
    mul256_eq_some, Option.some_inj, beq_iff_eq, Bool.not_eq_true'] at h
  obtain ⟨_, h1, _, h2, _, h3, p98, ⟨_, _⟩, pb, ⟨_, _⟩, ps, ⟨_, _⟩, _, _, _, _, _, _, h4⟩ := h
  exact ⟨h1, h2, h3, h4.symm⟩

/-- A successful initiateCrossBorderTrade bumps nextTradeId, writes only the
fresh slot with an INITIATED trade owned by the caller, and leaves the
exchange-rate table alone. -/
theorem initiateCrossBorderTrade_some {env : FinEnv} {s : FinState}
    {p : InitiateParams} {s' : FinState}
    (h : initiateCrossBorderTrade env s p = some s') :
    s'.nextTradeId = s.nextTradeId + 1 ∧
    (∀ i, i ≠ s.nextTradeId → s'.trades i = s.trades i) ∧
    (s'.trades s.nextTradeId).status = .INITIATED ∧
    (s'.trades s.nextTradeId).buyer = env.sender ∧
    s'.exchangeRates = s.exchangeRates := by
  unfold initiateCrossBorderTrade convertToPYUSD at h
  simp only [Option.bind_eq_bind, Option.bind_eq_some, requireB_eq_some,
    mul256_eq_some, add256_eq_some, Option.some_inj, beq_iff_eq] at h
  obtain ⟨_, hg, _, hs1, _, hs2, _, hv, amt, ⟨⟨_, hr, prod, ⟨_, _⟩, hamt⟩, _, hmin, next, ⟨_, hnext⟩, heq⟩⟩ := h
  subst heq
  subst hnext
  refine ⟨rfl, ?_, ?_, ?_, rfl⟩
  · intro i hi
    simp [if_neg hi]
  · simp
  · simp


/-- initiateCrossChainTrade never changes storage. -/
theorem initiateCrossChainTrade_some {env : FinEnv} {s : FinState} {tid : ℕ} {s' : FinState}
    (h : initiateCrossChainTrade env s tid = some s') : s' = s := by
  unfold initiateCrossChainTrade at h
  simp only [Option.bind_eq_bind, Option.bind_eq_some, requireB_eq_some,
    Option.some_inj] at h
  obtain ⟨_, _, _, _, h⟩ := h
  exact h.symm

/-- A zero-valued storage slot holds an INITIATED status. -/
theorem default_trade_status : ({} : CrossBorderTrade).status = TradeStatus.INITIATED := rfl

/-- C4: executeComplianceCheck requires INITIATED and sets COMPLIANCE_CHECK,
escrowPYUSD requires COMPLIANCE_CHECK and sets PYUSD_ESCROWED,
executeInstantSettlement requires PYUSD_ESCROWED and sets SETTLED; and for a
non-zero caller on well-formed storage no entry point moves any trade status
backward in the enum order. -/
theorem pyusd_status_forward :
    (∀ (env : FinEnv) (s : FinState) (tid : ℕ) (s' : FinState),
       executeComplianceCheck env s tid = some s' →
       (s.trades tid).status = .INITIATED ∧ (s'.trades tid).status = .COMPLIANCE_CHECK) ∧
    (∀ (env : FinEnv) (s : FinState) (tid : ℕ) (s' : FinState),
       escrowPYUSD env s tid = some s' →
       (s.trades tid).status = .COMPLIANCE_CHECK ∧ (s'.trades tid).status = .PYUSD_ESCROWED) ∧
    (∀ (env : FinEnv) (s : FinState) (tid : ℕ) (s' : FinState),
       executeInstantSettlement env s tid = some s' →
       (s.trades tid).status = .PYUSD_ESCROWED ∧ (s'.trades tid).status = .SETTLED) ∧
    (∀ (env : FinEnv) (s : FinState) (op : FinOp) (s' : FinState),
       finStep env s op = some s' → env.sender ≠ 0 → freshTrades s →
       (∀ tid, statusRank ((s.trades tid).status) ≤ statusRank ((s'.trades tid).status)) ∧
       freshTrades s') := by
  refine ⟨?_, ?_, ?_, ?_⟩
  · intro env s tid s' h
    obtain ⟨_, h2, _, hs'⟩ := executeComplianceCheck_some h
    subst hs'
    exact ⟨h2, by simp⟩
  · intro env s tid s' h
    obtain ⟨_, h2, _, _, hs'⟩ := escrowPYUSD_some h
    subst hs'
    exact ⟨h2, by simp⟩
  · intro env s tid s' h
    obtain ⟨_, h2, _, hs'⟩ := executeInstantSettlement_some h
    subst hs'
    exact ⟨h2, by simp⟩
  · intro env s op s' h hsender hfresh
    cases op with
    | initiate p =>
        obtain ⟨hnext, hother, hstat, _, _⟩ := initiateCrossBorderTrade_some h
        constructor
        · intro tid
          by_cases ht : tid = s.nextTradeId
          · rw [ht, hfresh s.nextTradeId (le_refl _), default_trade_status]
            exact Nat.zero_le _
          · rw [hother tid ht]
        · intro tid htid
          rw [hnext] at htid
          have h1 : tid ≠ s.nextTradeId := by omega
          rw [hother tid h1]
          exact hfresh tid (by omega)
    | complianceCheck tid0 =>
        obtain ⟨hpart, hstat, _, hs'⟩ := executeComplianceCheck_some h
        subst hs'
        constructor
        · intro tid
          by_cases ht : tid = tid0
          · subst ht
            simp only [if_pos rfl]
            rw [hstat]
            simp [statusRank]
          · simp [if_neg ht]
        · intro tid htid
          simp only at htid
          by_cases ht : tid = tid0
          · subst ht
            exfalso
            rw [hfresh tid htid] at hpart
            simp [isParticipant, isOnSanctionsList] at hpart
            omega
          · simp only [if_neg ht]
            exact hfresh tid htid
    | escrow tid0 =>
        obtain ⟨hpart, hstat, _, _, hs'⟩ := escrowPYUSD_some h
        subst hs'
        constructor
        · intro tid
          by_cases ht : tid = tid0
          · subst ht
            simp only [if_pos rfl]
            rw [hstat]
            simp [statusRank]
          · simp [if_neg ht]
        · intro tid htid
          simp only at htid
          by_cases ht : tid = tid0
          · subst ht
            exfalso
            rw [hfresh tid htid, default_trade_status] at hstat
            cases hstat
          · simp only [if_neg ht]
            exact hfresh tid htid
    | settle tid0 =>
        obtain ⟨hpart, hstat, _, hs'⟩ := executeInstantSettlement_some h
        subst hs'
        constructor
        · intro tid
          by_cases ht : tid = tid0
          · subst ht
            simp only [if_pos rfl]
            rw [hstat]
            simp [statusRank]
          · simp [if_neg ht]
        · intro tid htid
          simp only at htid
          by_cases ht : tid = tid0
          · subst ht
            exfalso
            rw [hfresh tid htid, default_trade_status] at hstat
            cases hstat
          · simp only [if_neg ht]
            exact hfresh tid htid
    | updateRate c r =>
        have hs' : s' = updateExchangeRate s c r := by
          simpa [finStep] using h.symm
        subst hs'
        exact ⟨fun tid => le_refl _, hfresh⟩
    | crossChain tid0 d1 d2 =>
        have hs' : s' = s := initiateCrossChainTrade_some h
        subst hs'
        exact ⟨fun tid => le_refl _, hfresh⟩


/-- C4 witness: a concrete compliance check moves trade 0 from INITIATED to
COMPLIANCE_CHECK, a forward move. -/
theorem pyusd_status_forward_witness :
    ∃ s1 : FinState,
      executeComplianceCheck demoFinEnv demoTradeState 0 = some s1 ∧
      (demoTradeState.trades 0).status = TradeStatus.INITIATED ∧
      (s1.trades 0).status = TradeStatus.COMPLIANCE_CHECK ∧
      statusRank ((demoTradeState.trades 0).status) ≤ statusRank ((s1.trades 0).status) := by
  have hfresh : freshTrades demoTradeState := by
    intro tid h
    have h1 : (1 : ℕ) ≤ tid := h
    have hne : tid ≠ 0 := by omega
    simp [demoTradeState, hne]
  refine ⟨_, rfl, ?_, ?_, ?_⟩
  · exact ((pyusd_status_forward.1) demoFinEnv demoTradeState 0 _ rfl).1
  · exact ((pyusd_status_forward.1) demoFinEnv demoTradeState 0 _ rfl).2
  · exact ((pyusd_status_forward.2.2.2) demoFinEnv demoTradeState
      (FinOp.complianceCheck 0) _ rfl (by decide) hfresh).1 0

/-- C5 (amended): the constructor hardcodes exactly the five claimed rates
(and zero elsewhere); every entry point except updateExchangeRate leaves the
table unchanged; updateExchangeRate overwrites exactly the given entry. -/
theorem exchangeRates_only_updateRate :
    (finConstructor.exchangeRates "USD" = 1000000 ∧
     finConstructor.exchangeRates "EUR" = 1100000 ∧
     finConstructor.exchangeRates "GBP" = 1250000 ∧
     finConstructor.exchangeRates "JPY" = 6700 ∧
     finConstructor.exchangeRates "CNY" = 140000 ∧
     ∀ c, c ∉ (["USD", "EUR", "GBP", "JPY", "CNY"] : List String) →
       finConstructor.exchangeRates c = 0) ∧
    (∀ (env : FinEnv) (s : FinState) (op : FinOp) (s' : FinState),
       finStep env s op = some s' → isUpdateRate op = false →
       s'.exchangeRates = s.exchangeRates) ∧
    (∀ (s : FinState) (c : String) (r : ℕ),
       (updateExchangeRate s c r).exchangeRates c = r ∧
       ∀ c', c' ≠ c → (updateExchangeRate s c r).exchangeRates c' = s.exchangeRates c') := by
  refine ⟨⟨rfl, rfl, rfl, rfl, rfl, ?_⟩, ?_, ?_⟩
  · intro c hc
    simp only [List.mem_cons, List.mem_singleton, not_or] at hc
    obtain ⟨h1, h2, h3, h4, h5⟩ := hc
    simp [finConstructor, h1, h2, h3, h4, h5]
  · intro env s op s' h hup
    cases op with
    | initiate p => exact (initiateCrossBorderTrade_some h).2.2.2.2
    | complianceCheck tid =>
        obtain ⟨_, _, _, hs'⟩ := executeComplianceCheck_some h
        subst hs'; rfl
    | escrow tid =>
        obtain ⟨_, _, _, _, hs'⟩ := escrowPYUSD_some h
        subst hs'; rfl
    | settle tid =>
        obtain ⟨_, _, _, hs'⟩ := executeInstantSettlement_some h
        subst hs'; rfl
    | updateRate c r => simp [isUpdateRate] at hup
    | crossChain tid d1 d2 => rw [initiateCrossChainTrade_some h]
  · intro s c r
    constructor
    · simp [updateExchangeRate]
    · intro c' hc'
      simp [updateExchangeRate, hc']

/-- C5 counterexample: updateExchangeRate is callable (by anyone) and changes
the USD entry of the table, so the table is not immutable after construction. -/
theorem updateExchangeRate_mutates_usd :
    ∃ s' : FinState, finStep demoFinEnv finConstructor (FinOp.updateRate "USD" 0) = some s' ∧
      finConstructor.exchangeRates "USD" = 1000000 ∧ s'.exchangeRates "USD" = 0 := by
  refine ⟨_, rfl, rfl, by simp [updateExchangeRate]⟩

/-- C5 witness: a concrete successful non-update operation preserves the
exchange-rate table. -/
theorem exchangeRates_only_updateRate_witness :
    ∃ s' : FinState, finStep demoFinEnv demoTradeState (FinOp.complianceCheck 0) = some s' ∧
      s'.exchangeRates = demoTradeState.exchangeRates :=
  ⟨_, rfl, exchangeRates_only_updateRate.2.1 demoFinEnv demoTradeState
    (FinOp.complianceCheck 0) _ rfl rfl⟩

/-- _removeHolder touches only the holder bookkeeping, never balances. -/
theorem removeHolder_some {s : TokenState} {holder : ℕ} {s' : TokenState}
    (h : removeHolder s holder = some s') :
    s'.balances = s.balances ∧ s'.totalSupply = s.totalSupply := by
  unfold removeHolder at h
  simp only [Option.bind_eq_bind, Option.bind_eq_some, requireB_eq_some,
    Option.some_inj] at h
  obtain ⟨_, _, h⟩ := h
  subst h
  exact ⟨rfl, rfl⟩

/-- The final branch of _transfer (possible holder removal) keeps balances. -/
theorem tokenTailBranch {s2 : TokenState} {fromAddr : ℕ} {c : Prop} [Decidable c]
    {s' : TokenState}
    (h : (if c then removeHolder s2 fromAddr else some s2) = some s') :
    s'.balances = s2.balances ∧ s'.totalSupply = s2.totalSupply := by
  split at h
  · exact removeHolder_some h
  · cases h
    exact ⟨rfl, rfl⟩

/-- Inversion of a successful _transfer: the balance sheet is the source
balance sheet with amount moved from the sender slot to the recipient slot. -/
theorem transferInternal_some {s : TokenState} {fromAddr toAddr amount : ℕ} {s' : TokenState}
    (h : transferInternal s fromAddr toAddr amount = some s') :
    amount ≤ s.balances fromAddr ∧
    s'.totalSupply = s.totalSupply ∧
    s'.balances = fun a =>
      if a = toAddr then
        (if toAddr = fromAddr then s.balances fromAddr - amount else s.balances toAddr) + amount
      else if a = fromAddr then s.balances fromAddr - amount
      else s.balances a := by
  unfold transferInternal at h
  simp only [Option.bind_eq_bind, Option.bind_eq_some, requireB_eq_some,
    add256_eq_some, Option.some_inj, decide_eq_true_eq, Bool.not_eq_true'] at h
  obtain ⟨_, h1, _, h2, _, h3, newTo, ⟨hb, hnew⟩, h4⟩ := h
  subst hnew
  obtain ⟨hbal, hts⟩ := tokenTailBranch h4
  refine ⟨h3, ?_, ?_⟩
  · rw [hts, apply_ite TokenState.totalSupply]
    simp
  · rw [hbal, apply_ite TokenState.balances]
    simp


/-- Moving amount between two slots of a finitely-supported balance sheet
preserves the total over any support extended with the two parties. -/
theorem balance_update_sums (bal : ℕ → ℕ) (f t amt : ℕ) (hf : amt ≤ bal f)
    (S : Finset ℕ) (hS : ∀ a ∉ S, bal a = 0) :
    (∀ a ∉ insert f (insert t S),
       (if a = t then (if t = f then bal f - amt else bal t) + amt
        else if a = f then bal f - amt else bal a) = 0) ∧
    (∑ a ∈ insert f (insert t S),
       (if a = t then (if t = f then bal f - amt else bal t) + amt
        else if a = f then bal f - amt else bal a)) = ∑ a ∈ S, bal a := by
  constructor
  · intro a ha
    simp only [Finset.mem_insert, not_or] at ha
    obtain ⟨haf, hat, haS⟩ := ha
    rw [if_neg hat, if_neg haf]
    exact hS a haS
  · have hsum1 : ∑ a ∈ insert f (insert t S), bal a = ∑ a ∈ S, bal a := by
      rw [Finset.sum_insert_of_eq_zero_if_not_mem, Finset.sum_insert_of_eq_zero_if_not_mem]
      · intro ht; exact hS t ht
      · intro hfm
        simp only [Finset.mem_insert, not_or] at hfm
        exact hS f hfm.2
    rw [← hsum1]
    by_cases htf : t = f
    · subst htf
      apply Finset.sum_congr rfl
      intro a _
      by_cases hat : a = t
      · rw [if_pos hat, if_pos rfl, Nat.sub_add_cancel hf, hat]
      · rw [if_neg hat, if_neg hat]
    · have hbal2 : (fun a => if a = t then (if t = f then bal f - amt else bal t) + amt
          else if a = f then bal f - amt else bal a)
          = Function.update (Function.update bal f (bal f - amt)) t (bal t + amt) := by
        funext a
        rw [Function.update_apply, Function.update_apply]
        by_cases hat : a = t
        · rw [if_pos hat, if_pos hat, if_neg htf]
        · rw [if_neg hat, if_neg hat]
      have hbeta : (∑ a ∈ insert f (insert t S),
          (if a = t then (if t = f then bal f - amt else bal t) + amt
           else if a = f then bal f - amt else bal a)) =
          ∑ a ∈ insert f (insert t S),
            Function.update (Function.update bal f (bal f - amt)) t (bal t + amt) a := by
        apply Finset.sum_congr rfl
        intro a _
        exact congrFun hbal2 a
      rw [hbeta]
      have htS : t ∈ insert f (insert t S) := by simp
      have hfS : f ∈ (insert f (insert t S)).erase t := by
        rw [Finset.mem_erase]
        exact ⟨fun hft => htf hft.symm, by simp⟩
      rw [Finset.sum_update_of_mem htS, Finset.sdiff_singleton_eq_erase,
        Finset.sum_update_of_mem hfS, Finset.sdiff_singleton_eq_erase]
      have h1 : ∑ a ∈ ((insert f (insert t S)).erase t).erase f, bal a + bal f =
          ∑ a ∈ (insert f (insert t S)).erase t, bal a :=
        Finset.sum_erase_add _ _ hfS
      have h2 : ∑ a ∈ (insert f (insert t S)).erase t, bal a + bal t =
          ∑ a ∈ insert f (insert t S), bal a :=
        Finset.sum_erase_add _ _ htS
      omega


/-- Inversion of the constructor: the whole supply sits with the manager. -/
theorem tokenConstructor_some {p : AssetParams} {s0 : TokenState}
    (h : tokenConstructor p = some s0) :
    s0.totalSupply = p.totalFractions * 1000000000000000000 ∧
    s0.balances = fun a =>
      if a = p.manager then p.totalFractions * 1000000000000000000 else 0 := by
  unfold tokenConstructor at h
  simp only [Option.bind_eq_bind, Option.bind_eq_some, mul256_eq_some,
    Option.some_inj] at h
  obtain ⟨ts, ⟨_, hts⟩, hs0⟩ := h
  subst hts
  subst hs0
  exact ⟨rfl, rfl⟩

/-- The balance-sheet invariant transports along equal balances and supply. -/
theorem balancesInv_same {s s' : TokenState} (hb : s'.balances = s.balances)
    (ht : s'.totalSupply = s.totalSupply) (h : balancesInv s) : balancesInv s' := by
  obtain ⟨S, h1, h2⟩ := h
  exact ⟨S, fun a ha => by rw [hb]; exact h1 a ha, by rw [hb, ht]; exact h2⟩

/-- _transfer preserves the balance-sheet invariant. -/
theorem transfer_balancesInv {s s' : TokenState} {fromAddr toAddr amount : ℕ}
    (htr : transferInternal s fromAddr toAddr amount = some s')
    (hinv : balancesInv s) : balancesInv s' := by
  obtain ⟨hle, hts, hbal⟩ := transferInternal_some htr
  obtain ⟨S, hout, hsum⟩ := hinv
  obtain ⟨hz, hsum2⟩ := balance_update_sums s.balances fromAddr toAddr amount hle S hout
  refine ⟨insert fromAddr (insert toAddr S), ?_, ?_⟩
  · intro a ha
    rw [hbal]
    exact hz a ha
  · rw [hts, ← hsum]
    calc ∑ a ∈ insert fromAddr (insert toAddr S), s'.balances a
        = ∑ a ∈ insert fromAddr (insert toAddr S),
            (if a = toAddr then
              (if toAddr = fromAddr then s.balances fromAddr - amount
               else s.balances toAddr) + amount
             else if a = fromAddr then s.balances fromAddr - amount
             else s.balances a) := by
          apply Finset.sum_congr rfl
          intro a _
          rw [hbal]
      _ = ∑ a ∈ S, s.balances a := hsum2

/-- Every successful entry point keeps totalSupply, preserves the
balance-sheet invariant, and non-transfer operations keep balances verbatim. -/
theorem tokenStep_some_inv {env : TokenEnv} {s : TokenState} {op : TokenOp} {s' : TokenState}
    (h : tokenStep env s op = some s') :
    s'.totalSupply = s.totalSupply ∧
    (balancesInv s → balancesInv s') ∧
    (isTransferOp op = false → s'.balances = s.balances) := by
  cases op with
  | transferOp toAddr amount =>
      unfold tokenStep tokenTransfer at h
      simp only [Option.bind_eq_bind, Option.bind_eq_some, requireB_eq_some] at h
      obtain ⟨_, _, _, _, _, _, _, _, _, _, _, _, htr⟩ := h
      obtain ⟨_, hts, _⟩ := transferInternal_some htr
      exact ⟨hts, transfer_balancesInv htr, fun hop => by simp [isTransferOp] at hop⟩
  | transferFromOp fromAddr toAddr amount =>
      unfold tokenStep tokenTransferFrom at h
      simp only [Option.bind_eq_bind, Option.bind_eq_some, requireB_eq_some] at h
      obtain ⟨_, _, _, _, _, _, _, _, _, _, _, _, _, _, htr⟩ := h
      obtain ⟨_, hts, _⟩ := transferInternal_some htr
      exact ⟨hts, fun hinv => transfer_balancesInv htr hinv,
        fun hop => by simp [isTransferOp] at hop⟩
  | approveOp spender amount =>
      unfold tokenStep at h
      cases h
      exact ⟨rfl, balancesInv_same rfl rfl, fun _ => rfl⟩
  | whitelistOp investor cls =>
      unfold tokenStep whitelistInvestor at h
      simp only [Option.bind_eq_bind, Option.bind_eq_some, requireB_eq_some,
        Option.some_inj] at h
      obtain ⟨_, _, _, _, hs'⟩ := h
      subst hs'
      exact ⟨rfl, balancesInv_same rfl rfl, fun _ => rfl⟩
  | pauseOp =>
      unfold tokenStep emergencyPause at h
      simp only [Option.bind_eq_bind, Option.bind_eq_some, requireB_eq_some,
        Option.some_inj] at h
      obtain ⟨_, _, hs'⟩ := h
      subst hs'
      exact ⟨rfl, balancesInv_same rfl rfl, fun _ => rfl⟩
  | resumeOp =>
      unfold tokenStep resumeTransfers at h
      simp only [Option.bind_eq_bind, Option.bind_eq_some, requireB_eq_some,
        Option.some_inj] at h
      obtain ⟨_, _, hs'⟩ := h
      subst hs'
      exact ⟨rfl, balancesInv_same rfl rfl, fun _ => rfl⟩
  | statusOp newStatus =>
      unfold tokenStep updateAssetStatus at h
      simp only [Option.bind_eq_bind, Option.bind_eq_some, requireB_eq_some,
        Option.some_inj] at h
      obtain ⟨_, _, hs'⟩ := h
      subst hs'
      exact ⟨rfl, balancesInv_same rfl rfl, fun _ => rfl⟩

/-- The balance-sheet invariant and the supply are preserved along any run. -/
theorem runToken_preserves {ops : List (TokenEnv × TokenOp)} :
    ∀ {s sN : TokenState}, runToken s ops = some sN → balancesInv s →
      balancesInv sN ∧ sN.totalSupply = s.totalSupply := by
  induction ops with
  | nil =>
      intro s sN h hinv
      cases h
      exact ⟨hinv, rfl⟩
  | cons p rest ih =>
      intro s sN h hinv
      unfold runToken at h
      simp only [Option.bind_eq_bind, Option.bind_eq_some] at h
      obtain ⟨s1, hstep, hrest⟩ := h
      obtain ⟨htotal, hinvf, _⟩ := tokenStep_some_inv hstep
      obtain ⟨hi, ht⟩ := ih hrest (hinvf hinv)
      exact ⟨hi, ht.trans htotal⟩


/-- C10: the constructor mints the whole supply to the manager; along every
run of external calls the sum of all balances stays equal to the constructed
totalSupply; and no operation other than transfer and transferFrom modifies
any balance. -/
theorem institutionalAsset_supply_conservation :
    (∀ (p : AssetParams) (s0 : TokenState), tokenConstructor p = some s0 →
       (∀ a ∉ ({p.manager} : Finset ℕ), s0.balances a = 0) ∧
       (∑ a ∈ ({p.manager} : Finset ℕ), s0.balances a) = s0.totalSupply) ∧
    (∀ (p : AssetParams) (s0 sN : TokenState) (ops : List (TokenEnv × TokenOp)),
       tokenConstructor p = some s0 → runToken s0 ops = some sN →
       balancesInv sN ∧ sN.totalSupply = s0.totalSupply) ∧
    (∀ (env : TokenEnv) (s : TokenState) (op : TokenOp) (s' : TokenState),
       tokenStep env s op = some s' → isTransferOp op = false →
       s'.balances = s.balances) := by
  have hcon : ∀ (p : AssetParams) (s0 : TokenState), tokenConstructor p = some s0 →
      (∀ a ∉ ({p.manager} : Finset ℕ), s0.balances a = 0) ∧
      (∑ a ∈ ({p.manager} : Finset ℕ), s0.balances a) = s0.totalSupply := by
    intro p s0 h
    obtain ⟨hts, hbal⟩ := tokenConstructor_some h
    constructor
    · intro a ha
      rw [Finset.mem_singleton] at ha
      rw [hbal]
      simp [ha]
    · rw [Finset.sum_singleton, hbal, hts]
      simp
  refine ⟨hcon, ?_, ?_⟩
  · intro p s0 sN ops hc hrun
    have hinv0 : balancesInv s0 := ⟨{p.manager}, (hcon p s0 hc).1, (hcon p s0 hc).2⟩
    exact runToken_preserves hrun hinv0
  · intro env s op s' h hop
    exact (tokenStep_some_inv h).2.2 hop

/-- C10 witness: constructing the demo token, whitelisting investor 7 and
transferring 1000 base units preserves the invariant and the supply. -/
theorem institutionalAsset_supply_conservation_witness :
    ∃ s0 sN : TokenState,
      tokenConstructor demoAssetParams = some s0 ∧
      runToken s0 [(demoTokenEnv, TokenOp.whitelistOp 7 1),
                   (demoTokenEnv, TokenOp.transferOp 7 1000)] = some sN ∧
      balancesInv sN ∧ sN.totalSupply = s0.totalSupply := by
  refine ⟨_, _, rfl, rfl, ?_, ?_⟩
  · exact (institutionalAsset_supply_conservation.2.1 demoAssetParams _ _
      [(demoTokenEnv, TokenOp.whitelistOp 7 1),
       (demoTokenEnv, TokenOp.transferOp 7 1000)] rfl rfl).1
  · exact (institutionalAsset_supply_conservation.2.1 demoAssetParams _ _
      [(demoTokenEnv, TokenOp.whitelistOp 7 1),
       (demoTokenEnv, TokenOp.transferOp 7 1000)] rfl rfl).2

end RWADemo
